import Mathlib

/-!
Shallow embedding of `fcm_send.py`, a command-line Firebase Cloud Messaging
client.  Python functions become Lean functions; the mutable process state
(the `GOOGLE_APPLICATION_CREDENTIALS` environment variable, the Firebase
Admin SDK app registry, and the per-client `_initialized` latch) is threaded
explicitly as a state record; external collaborators (the filesystem, the
`json` module, the Firebase Admin SDK) are parameters gathered in a `World`
record.  Machine-level details such as floating-point JSON numbers are out of
scope: JSON numbers are modelled as integers, which covers every behaviour
the program distinguishes.
-/

namespace FcmSend

/-- JSON values as produced by Python's `json.loads` / `json.load`.
Numbers are modelled as integers (floats are not exercised by the program's
own logic); objects are association lists in insertion order, assumed
duplicate-free as Python dicts are. -/
inductive Json where
  | null : Json
  | bool (b : Bool) : Json
  | num (n : Int) : Json
  | str (s : String) : Json
  | arr (xs : List Json) : Json
  | obj (kvs : List (String × Json)) : Json

/-- Python truthiness (`bool(x)`) of a JSON-decoded value: `None`, `False`,
`0`, `""`, `[]` and `{}` are falsy, everything else truthy. -/
def pyTruthy : Json → Bool
  | .null => false
  | .bool b => b
  | .num n => !(n == 0)
  | .str s => !(s == "")
  | .arr xs => !xs.isEmpty
  | .obj kvs => !kvs.isEmpty

/-- Python truthiness of an optional string (CLI flag values): `None` and the
empty string are falsy. -/
def truthy : Option String → Bool
  | none => false
  | some s => !(s == "")

/-- The single-quote character, written via its code point. -/
def squoteChar : Char := Char.ofNat 39

/-- The single-quote character as a string. -/
def squote : String := String.mk [squoteChar]

/-- The double-quote character. -/
def dquoteChar : Char := Char.ofNat 34

/-- Escape every single quote in `s` with a backslash (used by Python's
`repr` when a string holds both kinds of quote).  Escapes of control
characters and backslashes are not modelled; the program never produces
them itself. -/
def escSQ (s : String) : String :=
  s.toList.foldl
    (fun acc c => acc ++ (if c = squoteChar then "\\" ++ squote else String.mk [c])) ""

/-- Python's `repr` on a `str`: single quotes by default, double quotes when
the string holds a single quote but no double quote, otherwise single quotes
with the single quotes escaped. -/
def pyReprString (s : String) : String :=
  if !(s.contains squoteChar) then squote ++ s ++ squote
  else if !(s.contains dquoteChar) then
    String.mk [dquoteChar] ++ s ++ String.mk [dquoteChar]
  else squote ++ escSQ s ++ squote

mutual
/-- Python's `repr` on a JSON-decoded value. -/
def pyRepr : Json → String
  | .null => "None"
  | .bool true => "True"
  | .bool false => "False"
  | .num n => toString n
  | .str s => pyReprString s
  | .arr xs => "[" ++ pyReprList xs ++ "]"
  | .obj kvs => "\x7b" ++ pyReprObj kvs ++ "\x7d"

/-- Comma-separated `repr` of list elements. -/
def pyReprList : List Json → String
  | [] => ""
  | [x] => pyRepr x
  | x :: y :: rest => pyRepr x ++ ", " ++ pyReprList (y :: rest)

/-- Comma-separated `repr` of dict entries. -/
def pyReprObj : List (String × Json) → String
  | [] => ""
  | [(k, v)] => pyReprString k ++ ": " ++ pyRepr v
  | (k, v) :: kv :: rest => pyReprString k ++ ": " ++ pyRepr v ++ ", " ++ pyReprObj (kv :: rest)
end

/-- Python's `str` on a JSON-decoded value: the identity on strings,
`repr`-style rendering on every other value (`str(5) = "5"`,
`str(True) = "True"`, `str(None) = "None"`, containers via `repr`). -/
def pyStr : Json → String
  | .str s => s
  | j => pyRepr j

/-- Python type names of JSON-decoded values, used in `AttributeError`
messages. -/
def pyTypeName : Json → String
  | .null => "NoneType"
  | .bool _ => "bool"
  | .num _ => "int"
  | .str _ => "str"
  | .arr _ => "list"
  | .obj _ => "dict"

/-- Exceptions the program can raise or observe.  `environmentError` is
Python's `EnvironmentError` (the spec's ConfigurationError),
`fileNotFoundError` the spec's NotFoundError, `jsonDecodeError` the spec's
ParseError; `firebaseError` covers generic SDK failures, `tokenError`
failures of access-token retrieval. -/
inductive PyExc where
  | environmentError (msg : String) : PyExc
  | fileNotFoundError (msg : String) : PyExc
  | jsonDecodeError (msg : String) : PyExc
  | attributeError (msg : String) : PyExc
  | unregisteredError : PyExc
  | senderIdMismatchError : PyExc
  | firebaseError (msg : String) : PyExc
  | tokenError (msg : String) : PyExc
deriving DecidableEq

/-- Python's `str(e)` on the exceptions above: the carried message. -/
def strOfExc : PyExc → String
  | .environmentError m => m
  | .fileNotFoundError m => m
  | .jsonDecodeError m => m
  | .attributeError m => m
  | .unregisteredError => "Requested entity was not found."
  | .senderIdMismatchError => "Sender id mismatch"
  | .firebaseError m => m
  | .tokenError m => m

/-- The `AttributeError` message raised by `x.items()` on a non-dict. -/
def itemsErr (j : Json) : String :=
  squote ++ pyTypeName j ++ squote ++ " object has no attribute " ++ squote ++ "items" ++ squote

/-- `data.items()`: the entry list of a dict, an `AttributeError` on any
other value. -/
def pyItems : Json → Except PyExc (List (String × Json))
  | .obj kvs => .ok kvs
  | j => .error (.attributeError (itemsErr j))

/-- `d.get(key, default)` on a JSON value: dict lookup with default, an
`AttributeError` on non-dicts. -/
def dictGet (j : Json) (key : String) (dflt : Json) : Except PyExc Json :=
  match j with
  | .obj kvs => .ok ((kvs.lookup key).getD dflt)
  | _ => .error (.attributeError
      (squote ++ pyTypeName j ++ squote ++ " object has no attribute " ++ squote ++ "get" ++ squote))

/-- The error message of `FCMClient.credentials_path` when no credential
source is available. -/
def noCredsMsg : String :=
  "No credentials provided. Please provide one of the following:\n" ++
  "  1. Use --credentials-key-file /path/to/service-account.json\n" ++
  "  2. Set environment variable: export GOOGLE_APPLICATION_CREDENTIALS=/path/to/service-account.json"

/-- The path selection step of `FCMClient.credentials_path`: the CLI value
when truthy, else the environment variable (`creds_path = ... if ... else
os.environ.get(...)`). -/
def selectedPath (flagVal envVal : Option String) : Option String :=
  if truthy flagVal then flagVal else envVal

/-- `FCMClient.credentials_path`: select the path (CLI argument first, else
environment variable), raise `EnvironmentError` when the result is falsy
(`None` or empty), `FileNotFoundError` when the file does not exist. -/
def credentials_path (flagVal envVal : Option String) (fileExists : String → Bool) :
    Except PyExc String :=
  match selectedPath flagVal envVal with
  | none => .error (.environmentError noCredsMsg)
  | some p =>
    if p = "" then .error (.environmentError noCredsMsg)
    else if fileExists p then .ok p
    else .error (.fileNotFoundError ("Credentials file not found: " ++ p))

/-- `FCMClient.project_id`, applied to an already-loaded payload:
`if self.credentials_info: return self.credentials_info.get("project_id",
"N/A")` / `return ""`. -/
def project_id_of (j : Json) : Except PyExc Json :=
  if pyTruthy j then dictGet j "project_id" (.str "N/A") else .ok (.str "")

/-- `FCMClient.service_account_email`, applied to an already-loaded
payload. -/
def service_account_email_of (j : Json) : Except PyExc Json :=
  if pyTruthy j then dictGet j "client_email" (.str "N/A") else .ok (.str "")

/-- The parsed command-line arguments (the `argparse` namespace): value
flags are `Option String` (absent = `None`), switch flags are `Bool`. -/
structure Args where
  credentials_key_file : Option String := none
  info : Bool := false
  access_token : Bool := false
  info_http : Bool := false
  access_token_http : Bool := false
  token : Option String := none
  title : Option String := none
  body : Option String := none
  data : Option String := none
  data_only : Option String := none
  image : Option String := none
  dry_run : Bool := false

/-- `messaging.Notification(title=..., body=..., image=...)`. -/
structure Notification where
  title : Option String
  body : Option String
  image : Option String

/-- `messaging.Message(notification=..., token=..., data=...)`.  The data
mapping keeps JSON-typed values because `send_notification` forwards
whatever dict it is given without coercion. -/
structure Message where
  notification : Option Notification
  token : Option String
  data : Option (List (String × Json))

/-- Outcome of `messaging.send` at the remote service. -/
inductive SendOutcome where
  | ok (messageId : String) : SendOutcome
  | unregistered : SendOutcome
  | senderIdMismatch : SendOutcome
  | failure (msg : String) : SendOutcome

/-- Which access token `show_info` retrieves (the `AccessTokenType` enum). -/
inductive AccessTokenType where
  | firebaseAdmin : AccessTokenType
  | fcmOauthHttpApi : AccessTokenType

/-- The mutable process state threaded through an invocation, together with
an observation trace: `env` is `os.environ["GOOGLE_APPLICATION_CREDENTIALS"]`,
`initialized` the client's `_initialized` latch, `apps` whether
`firebase_admin._apps` is non-empty, `initCount` how many times
`firebase_admin.initialize_app()` ran, `initEnvSeen` the value of `env` at
each such run, `tokenFetches` how many access-token network round-trips were
attempted, `sends` each message handed to `messaging.send` with its
`dry_run` flag, `stdout` / `stderrLines` the printed lines. -/
structure St where
  env : Option String
  initialized : Bool
  apps : Bool
  initCount : Nat := 0
  initEnvSeen : List (Option String) := []
  tokenFetches : Nat := 0
  sends : List (Message × Bool) := []
  stdout : List String := []
  stderrLines : List String := []

/-- A fresh process state: the SDK app registry empty, the client latch
unset, the ambient environment variable as the process inherited it. -/
def freshSt (e : Option String) : St :=
  { env := e, initialized := false, apps := false }

/-- External collaborators: the filesystem, `json`, and the Firebase SDK
endpoints.  Each is an arbitrary function; theorems quantify over them. -/
structure World where
  fileExists : String → Bool
  readJson : String → Except String Json
  loads : String → Except String Json
  send : Message → Bool → SendOutcome
  initApp : Except String Unit
  adminToken : Except String String
  httpToken : String → Except String String

/-- How the invocation ends: `normal` is an ordinary return from `run`
(process exit 0), `exited c` a `sys.exit(c)` / `parser.error`, `uncaught e`
an exception escaping `main` (the interpreter then exits 1 after printing a
traceback). -/
inductive ExitKind where
  | normal : ExitKind
  | exited (code : Nat) : ExitKind
  | uncaught (e : PyExc) : ExitKind
deriving DecidableEq

/-- The process exit status an `ExitKind` produces. -/
def exitCodeOf : ExitKind → Nat
  | .normal => 0
  | .exited c => c
  | .uncaught _ => 1

/-- `FCMClient.initialize`: when neither the latch nor the SDK registry is
set, propagate a truthy CLI credential path into the environment variable,
then run `firebase_admin.initialize_app()` (which may raise) and set the
latch; otherwise do nothing. -/
def initializeSDK (cred : Option String) (w : World) (st : St) : St × Except PyExc Unit :=
  if !st.initialized && !st.apps then
    let st1 := if truthy cred then { st with env := cred } else st
    match w.initApp with
    | .error m => (st1, .error (.firebaseError m))
    | .ok _ =>
      ({ st1 with apps := true, initialized := true,
                  initCount := st1.initCount + 1,
                  initEnvSeen := st1.initEnvSeen ++ [st1.env] }, .ok ())
  else (st, .ok ())

/-- `FCMClient.get_access_token`: initialize, then fetch the Admin-SDK
credential's access token. -/
def get_access_token (cred : Option String) (w : World) (st : St) :
    St × Except PyExc String :=
  match initializeSDK cred w st with
  | (st1, .error e) => (st1, .error e)
  | (st1, .ok _) =>
    let st2 := { st1 with tokenFetches := st1.tokenFetches + 1 }
    match w.adminToken with
    | .ok t => (st2, .ok t)
    | .error m => (st2, .error (.tokenError m))

/-- `FCMClient.get_access_token_http_api`: initialize, build a certificate
from the resolved credentials path, fetch its OAuth2 token. -/
def get_access_token_http_api (cred : Option String) (w : World) (st : St) :
    St × Except PyExc String :=
  match initializeSDK cred w st with
  | (st1, .error e) => (st1, .error e)
  | (st1, .ok _) =>
    match credentials_path cred st1.env w.fileExists with
    | .error e => (st1, .error e)
    | .ok p =>
      let st2 := { st1 with tokenFetches := st1.tokenFetches + 1 }
      match w.httpToken p with
      | .ok t => (st2, .ok t)
      | .error m => (st2, .error (.tokenError m))

/-- `FCMClient.credentials_info`: open the resolved path and parse it as
JSON (`json.JSONDecodeError` on malformed contents).  The source caches the
result on the instance; re-reading is observationally identical here. -/
def credentials_info (cred envVal : Option String) (w : World) : Except PyExc Json :=
  match credentials_path cred envVal w.fileExists with
  | .error e => .error e
  | .ok p =>
    match w.readJson p with
    | .ok j => .ok j
    | .error m => .error (.jsonDecodeError m)

/-- `FCMClient.project_id` as the full accessor: load the credentials, then
project the field. -/
def project_id (cred envVal : Option String) (w : World) : Except PyExc Json :=
  match credentials_info cred envVal w with
  | .error e => .error e
  | .ok j => project_id_of j

/-- `FCMClient.service_account_email` as the full accessor. -/
def service_account_email (cred envVal : Option String) (w : World) : Except PyExc Json :=
  match credentials_info cred envVal w with
  | .error e => .error e
  | .ok j => service_account_email_of j

/-- A line of sixty equals signs, as printed by `show_info`. -/
def eqLine : String := String.mk (List.replicate 60 (Char.ofNat 61))

/-- Record a call to `messaging.send(message, dry_run=...)` and return the
remote outcome. -/
def doSend (w : World) (st : St) (m : Message) (dry : Bool) : St × SendOutcome :=
  ({ st with sends := st.sends ++ [(m, dry)] }, w.send m dry)

/-- Map a remote `SendOutcome` onto the exceptions `messaging.send`
raises. -/
def sendOutcomeToExc (st : St) : SendOutcome → St × Except PyExc String
  | .ok messageId => (st, .ok messageId)
  | .unregistered => (st, .error .unregisteredError)
  | .senderIdMismatch => (st, .error .senderIdMismatchError)
  | .failure m => (st, .error (.firebaseError m))

/-- `FCMClient.send_notification`: initialize, build the notification and
the message — the `data` mapping is stored in the message exactly as given,
with no coercion — and invoke the remote send. -/
def send_notification (cred : Option String) (w : World) (st : St)
    (fcm_token title body : Option String) (data : Option (List (String × Json)))
    (image_url : Option String) (dry_run : Bool) : St × Except PyExc String :=
  match initializeSDK cred w st with
  | (st1, .error e) => (st1, .error e)
  | (st1, .ok _) =>
    let notification : Notification := { title := title, body := body, image := image_url }
    let message : Message := { notification := some notification, token := fcm_token, data := data }
    let (st2, out) := doSend w st1 message dry_run
    sendOutcomeToExc st2 out

/-- `FCMClient.send_data_message`: initialize, stringify every value of the
payload (`{k: str(v) for k, v in data.items()}` — an `AttributeError` on
non-dicts), build a data-only message and invoke the remote send. -/
def send_data_message (cred : Option String) (w : World) (st : St)
    (fcm_token : Option String) (data : Json) (dry_run : Bool) : St × Except PyExc String :=
  match initializeSDK cred w st with
  | (st1, .error e) => (st1, .error e)
  | (st1, .ok _) =>
    match pyItems data with
    | .error e => (st1, .error e)
    | .ok items =>
      let string_data := items.map (fun kv => (kv.1, pyStr kv.2))
      let message : Message :=
        { notification := none, token := fcm_token,
          data := some (string_data.map (fun kv => (kv.1, Json.str kv.2))) }
      let (st2, out) := doSend w st1 message dry_run
      sendOutcomeToExc st2 out

/-- `FCMClient.show_info`: print the info block (raising on credential
failures), then try to retrieve and print the access token, catching every
exception from that block and printing it instead. -/
def show_info (tokType : AccessTokenType) (cred : Option String) (w : World) (st : St) :
    St × Except PyExc Unit :=
  let st := { st with stdout := st.stdout ++
    ["\n" ++ eqLine, "Firebase Service Account Information", eqLine] }
  match project_id cred st.env w with
  | .error e => (st, .error e)
  | .ok pid =>
  let st := { st with stdout := st.stdout ++ ["  PROJECT_ID:            " ++ pyStr pid] }
  match service_account_email cred st.env w with
  | .error e => (st, .error e)
  | .ok em =>
  let st := { st with stdout := st.stdout ++ ["  SERVICE_ACCOUNT_EMAIL: " ++ pyStr em] }
  match credentials_path cred st.env w.fileExists with
  | .error e => (st, .error e)
  | .ok p =>
  let st := { st with stdout := st.stdout ++ ["  CREDENTIALS_FILE:      " ++ p, eqLine] }
  let step : St × Except PyExc String :=
    match tokType with
    | .fcmOauthHttpApi =>
      match get_access_token_http_api cred w st with
      | (st1, .error e) => (st1, .error e)
      | (st1, .ok t) =>
        ({ st1 with stdout := st1.stdout ++
            ["\n  ACCESS_TOKEN (first 50 chars): " ++ t.take 50 ++ "..."] }, .ok t)
    | .firebaseAdmin => get_access_token cred w st
  let st :=
    match step with
    | (st1, .ok t) => { st1 with stdout := st1.stdout ++ ["  ACCESS_TOKEN (full):\n" ++ t] }
    | (st1, .error e) =>
      { st1 with stdout := st1.stdout ++ ["\n  Error retrieving access token: " ++ strOfExc e] }
  ({ st with stdout := st.stdout ++ [eqLine ++ "\n"] }, .ok ())

/-- `CLIHandler.handle_info`: run `show_info`, catching `EnvironmentError`
and `FileNotFoundError` (print and exit 1); every other exception escapes
uncaught. -/
def handle_info (tokType : AccessTokenType) (cred : Option String) (w : World) (st : St) :
    St × ExitKind :=
  match show_info tokType cred w st with
  | (st1, .ok _) => (st1, .normal)
  | (st1, .error (.environmentError m)) =>
    ({ st1 with stdout := st1.stdout ++ ["Error: " ++ m] }, .exited 1)
  | (st1, .error (.fileNotFoundError m)) =>
    ({ st1 with stdout := st1.stdout ++ ["Error: " ++ m] }, .exited 1)
  | (st1, .error e) => (st1, .uncaught e)

/-- `CLIHandler.handle_data_only`: parse the `--data-only` JSON (print and
exit 1 on a decode error), then send, catching every exception from the
send (print a generic send error and exit 1). -/
def handle_data_only (args : Args) (w : World) (st : St) : St × ExitKind :=
  match w.loads (args.data_only.getD "") with
  | .error m =>
    ({ st with stdout := st.stdout ++ ["Error: Invalid JSON in --data-only: " ++ m] }, .exited 1)
  | .ok data =>
    match send_data_message args.credentials_key_file w st args.token data args.dry_run with
    | (st1, .ok messageId) =>
      if args.dry_run then
        ({ st1 with stdout := st1.stdout ++
          ["\n✓ Dry run successful! Data message is valid.",
           "  Message ID (dry run): " ++ messageId] }, .normal)
      else
        ({ st1 with stdout := st1.stdout ++
          ["\n✓ Data message sent successfully!",
           "  Message ID: " ++ messageId] }, .normal)
    | (st1, .error e) =>
      ({ st1 with stdout := st1.stdout ++
        ["\n✗ Error sending data message: " ++ strOfExc e] }, .exited 1)

/-- The `try`-send block of `CLIHandler.handle_notification`: invoke
`send_notification`, catching `UnregisteredError`, `SenderIdMismatchError`
and any other exception with their respective messages (each exits 1). -/
def handle_notification_send (args : Args) (w : World) (st : St)
    (data : Option (List (String × Json))) : St × ExitKind :=
  match send_notification args.credentials_key_file w st
      args.token args.title args.body data args.image args.dry_run with
  | (st1, .ok messageId) =>
    if args.dry_run then
      ({ st1 with stdout := st1.stdout ++
        ["\n✓ Dry run successful! Message is valid.",
         "  Message ID (dry run): " ++ messageId] }, .normal)
    else
      ({ st1 with stdout := st1.stdout ++
        ["\n✓ Notification sent successfully!",
         "  Message ID: " ++ messageId] }, .normal)
  | (st1, .error .unregisteredError) =>
    ({ st1 with stdout := st1.stdout ++
      ["\n✗ Error: The FCM token is not registered (device may have uninstalled the app)"] },
     .exited 1)
  | (st1, .error .senderIdMismatchError) =>
    ({ st1 with stdout := st1.stdout ++
      ["\n✗ Error: The FCM token does not match the sender ID (wrong project?)"] }, .exited 1)
  | (st1, .error e) =>
    ({ st1 with stdout := st1.stdout ++
      ["\n✗ Error sending notification: " ++ strOfExc e] }, .exited 1)

/-- `CLIHandler.handle_notification`: when `--data` is truthy, parse it —
only `json.JSONDecodeError` is caught there (print and exit 1); the
stringifying dict comprehension runs inside the same `try`, so its
`AttributeError` on a non-dict escapes uncaught — then run the send
block. -/
def handle_notification (args : Args) (w : World) (st : St) : St × ExitKind :=
  if truthy args.data then
    match w.loads (args.data.getD "") with
    | .error m =>
      ({ st with stdout := st.stdout ++ ["Error: Invalid JSON in --data: " ++ m] }, .exited 1)
    | .ok j =>
      match pyItems j with
      | .error e => (st, .uncaught e)
      | .ok items =>
        handle_notification_send args w st
          (some (items.map (fun kv => (kv.1, Json.str (pyStr kv.2)))))
  else handle_notification_send args w st none

/-- `argparse.ArgumentParser.error`: print a usage synopsis and the error
message to standard error (the synopsis text itself is rendered by the
library), then exit with status 2. -/
def parserError (st : St) (msg : String) : St × ExitKind :=
  ({ st with stderrLines := st.stderrLines ++
    ["usage: fcm_send.py [-h] ...", "fcm_send.py: error: " ++ msg] }, .exited 2)

/-- The stand-in for the `argparse`-rendered help text printed by
`print_help`. -/
def helpText : String := "usage: fcm_send.py [-h] ... (full help text rendered by argparse)"

/-- `CLIHandler.run`: the five-way mode dispatch, in source order. -/
def run (args : Args) (w : World) (st : St) : St × ExitKind :=
  if args.info || args.access_token then
    handle_info .firebaseAdmin args.credentials_key_file w st
  else if args.info_http || args.access_token_http then
    handle_info .fcmOauthHttpApi args.credentials_key_file w st
  else if truthy args.data_only then
    if !truthy args.token then parserError st "--token is required for sending messages"
    else handle_data_only args w st
  else if truthy args.token then
    if !truthy args.title || !truthy args.body then
      parserError st "--title and --body are required for notifications"
    else handle_notification args w st
  else
    ({ st with stdout := st.stdout ++ [helpText] }, .normal)

/-- The five dispatch modes of `CLIHandler.run`. -/
inductive Mode where
  | showInfoAdmin : Mode
  | showInfoHttp : Mode
  | sendDataOnly : Mode
  | sendNotification : Mode
  | help : Mode
deriving DecidableEq

/-- The mode `CLIHandler.run` selects, read off its `if` chain. -/
def selectMode (args : Args) : Mode :=
  if args.info || args.access_token then .showInfoAdmin
  else if args.info_http || args.access_token_http then .showInfoHttp
  else if truthy args.data_only then .sendDataOnly
  else if truthy args.token then .sendNotification
  else .help

/-- Modelled from the spec: first-match selection over an ordered guard
list ("the first matching mode wins"), defaulting to help. -/
def firstMatch : List (Bool × Mode) → Mode
  | [] => .help
  | (g, m) :: rest => if g then m else firstMatch rest

/-- Modelled from the spec: the five mode guards in the fixed order
show-info-admin, show-info-http, data-only send, notification send, help. -/
def modeGuards (args : Args) : List (Bool × Mode) :=
  [(args.info || args.access_token, .showInfoAdmin),
   (args.info_http || args.access_token_http, .showInfoHttp),
   (truthy args.data_only, .sendDataOnly),
   (truthy args.token, .sendNotification),
   (true, .help)]

/-- None of the four show-info switches is set. -/
def noInfoFlags (args : Args) : Prop :=
  args.info = false ∧ args.access_token = false ∧
  args.info_http = false ∧ args.access_token_http = false

/-- The invocation reaches the notification-send mode: no show-info switch,
no truthy `--data-only`, and a truthy token, title and body. -/
def notifMode (args : Args) : Prop :=
  noInfoFlags args ∧ truthy args.data_only = false ∧ truthy args.token = true ∧
  truthy args.title = true ∧ truthy args.body = true

/-- The invocation reaches the data-only send mode: no show-info switch, a
truthy `--data-only` and a truthy token. -/
def dataOnlyMode (args : Args) : Prop :=
  noInfoFlags args ∧ truthy args.data_only = true ∧ truthy args.token = true

/-- A concrete world for witnesses: every external collaborator succeeds. -/
def wBase : World :=
  { fileExists := fun _ => true,
    readJson := fun _ => .ok (.obj [("project_id", .str "demo"), ("client_email", .str "x@y.iam")]),
    loads := fun _ => .error "Expecting value: line 1 column 1 (char 0)",
    send := fun _ _ => .ok "projects/demo/messages/1",
    initApp := .ok (),
    adminToken := .ok "admintok",
    httpToken := fun _ => .ok "httptok" }

section Helpers

variable {args : Args} {w : World} {st : St}

lemma initializeSDK_fst_sends (cred : Option String) (w : World) (st : St) :
    (initializeSDK cred w st).1.sends = st.sends := by
  unfold initializeSDK
  split
  · cases h : w.initApp <;> split <;> simp [h]
  · rfl

lemma initializeSDK_fst_tokenFetches (cred : Option String) (w : World) (st : St) :
    (initializeSDK cred w st).1.tokenFetches = st.tokenFetches := by
  unfold initializeSDK
  split
  · cases h : w.initApp <;> split <;> simp [h]
  · rfl

lemma initializeSDK_snd_ok (cred : Option String) (h : w.initApp = .ok ()) :
    (initializeSDK cred w st).2 = .ok () := by
  unfold initializeSDK
  split
  · split <;> simp [h]
  · rfl

lemma initializeSDK_pair (cred : Option String) (h : w.initApp = .ok ()) :
    initializeSDK cred w st = ((initializeSDK cred w st).1, .ok ()) := by
  rw [← initializeSDK_snd_ok cred h]

lemma sendOutcomeToExc_fst (st : St) (o : SendOutcome) : (sendOutcomeToExc st o).1 = st := by
  cases o <;> rfl

lemma run_eq_handle_data_only (h : noInfoFlags args)
    (hd : truthy args.data_only = true) (ht : truthy args.token = true) :
    run args w st = handle_data_only args w st := by
  obtain ⟨h1, h2, h3, h4⟩ := h
  simp [run, h1, h2, h3, h4, hd, ht]

lemma run_eq_handle_notification (h : noInfoFlags args)
    (hd : truthy args.data_only = false) (ht : truthy args.token = true)
    (hti : truthy args.title = true) (hb : truthy args.body = true) :
    run args w st = handle_notification args w st := by
  obtain ⟨h1, h2, h3, h4⟩ := h
  simp [run, h1, h2, h3, h4, hd, ht, hti, hb]

lemma run_eq_usage_data_only (h : noInfoFlags args)
    (hd : truthy args.data_only = true) (ht : truthy args.token = false) :
    run args w st = parserError st "--token is required for sending messages" := by
  obtain ⟨h1, h2, h3, h4⟩ := h
  simp [run, h1, h2, h3, h4, hd, ht]

lemma run_eq_usage_notification (h : noInfoFlags args)
    (hd : truthy args.data_only = false) (ht : truthy args.token = true)
    (htb : truthy args.title = false ∨ truthy args.body = false) :
    run args w st = parserError st "--title and --body are required for notifications" := by
  obtain ⟨h1, h2, h3, h4⟩ := h
  rcases htb with h5 | h5 <;> simp [run, h1, h2, h3, h4, hd, ht, h5]

lemma run_eq_help (h : noInfoFlags args)
    (hd : truthy args.data_only = false) (ht : truthy args.token = false) :
    run args w st = ({ st with stdout := st.stdout ++ [helpText] }, .normal) := by
  obtain ⟨h1, h2, h3, h4⟩ := h
  simp [run, h1, h2, h3, h4, hd, ht]

lemma run_eq_handle_info (hi : args.info = true ∨ args.access_token = true) :
    run args w st = handle_info .firebaseAdmin args.credentials_key_file w st := by
  rcases hi with h | h <;> simp [run, h]

lemma send_notification_sends (cred : Option String) (h : w.initApp = .ok ())
    (tok ti bo img : Option String) (d : Option (List (String × Json))) (dry : Bool) :
    (send_notification cred w st tok ti bo d img dry).1.sends =
      st.sends ++
        [({ notification := some { title := ti, body := bo, image := img },
            token := tok, data := d }, dry)] := by
  unfold send_notification
  rw [initializeSDK_pair cred h]
  simp [doSend, sendOutcomeToExc_fst, initializeSDK_fst_sends]

lemma send_data_message_sends (cred : Option String) (h : w.initApp = .ok ())
    (tok : Option String) (kvs : List (String × Json)) (dry : Bool) :
    (send_data_message cred w st tok (.obj kvs) dry).1.sends =
      st.sends ++
        [({ notification := none, token := tok,
            data := some (kvs.map (fun kv => (kv.1, Json.str (pyStr kv.2)))) }, dry)] := by
  unfold send_data_message
  rw [initializeSDK_pair cred h]
  simp [pyItems, doSend, sendOutcomeToExc_fst, initializeSDK_fst_sends, List.map_map,
    Function.comp]

lemma handle_notification_send_sends (h : w.initApp = .ok ())
    (d : Option (List (String × Json))) :
    (handle_notification_send args w st d).1.sends =
      st.sends ++
        [({ notification := some { title := args.title, body := args.body, image := args.image },
            token := args.token, data := d }, args.dry_run)] := by
  have hsends := @send_notification_sends w st args.credentials_key_file h
    args.token args.title args.body args.image d args.dry_run
  unfold handle_notification_send
  rcases hs : send_notification args.credentials_key_file w st
      args.token args.title args.body d args.image args.dry_run with ⟨st1, r⟩
  rw [hs] at hsends
  rcases r with e | m
  · cases e <;> simpa using hsends
  · cases hd : args.dry_run <;> simpa [hd] using hsends

lemma handle_data_only_sends_of_obj (h : w.initApp = .ok ()) (kvs : List (String × Json))
    (hl : w.loads (args.data_only.getD "") = .ok (.obj kvs)) :
    (handle_data_only args w st).1.sends =
      st.sends ++
        [({ notification := none, token := args.token,
            data := some (kvs.map (fun kv => (kv.1, Json.str (pyStr kv.2)))) }, args.dry_run)] := by
  have hsends := @send_data_message_sends w st args.credentials_key_file h
    args.token kvs args.dry_run
  unfold handle_data_only
  rw [hl]
  dsimp only
  rcases hs : send_data_message args.credentials_key_file w st args.token (.obj kvs)
      args.dry_run with ⟨st1, r⟩
  rw [hs] at hsends
  rcases r with e | m
  · simpa using hsends
  · cases hd : args.dry_run <;> simpa [hd] using hsends

lemma exit_handle_notification_send_le (d : Option (List (String × Json))) :
    exitCodeOf (handle_notification_send args w st d).2 ≤ 2 := by
  unfold handle_notification_send
  rcases send_notification args.credentials_key_file w st
      args.token args.title args.body d args.image args.dry_run with ⟨st1, r⟩
  rcases r with e | m
  · cases e <;> simp [exitCodeOf]
  · cases hd : args.dry_run <;> simp [hd, exitCodeOf]

lemma exit_handle_info_le (t : AccessTokenType) (c : Option String) :
    exitCodeOf (handle_info t c w st).2 ≤ 2 := by
  unfold handle_info
  split <;> simp [exitCodeOf]

lemma exit_handle_data_only_le : exitCodeOf (handle_data_only args w st).2 ≤ 2 := by
  unfold handle_data_only
  split
  · simp [exitCodeOf]
  · split
    · split <;> simp [exitCodeOf]
    · simp [exitCodeOf]

lemma exit_handle_notification_le : exitCodeOf (handle_notification args w st).2 ≤ 2 := by
  unfold handle_notification
  split
  · split
    · simp [exitCodeOf]
    · split
      · simp [exitCodeOf]
      · exact exit_handle_notification_send_le _
  · exact exit_handle_notification_send_le _

lemma initializeSDK_fst_stdout (cred : Option String) (w : World) (st : St) :
    (initializeSDK cred w st).1.stdout = st.stdout := by
  unfold initializeSDK
  split
  · cases h : w.initApp <;> split <;> simp [h]
  · rfl

lemma pyItems_err {j : Json} (hobj : ∀ kvs, j ≠ .obj kvs) :
    pyItems j = .error (.attributeError (itemsErr j)) := by
  cases j <;> simp [pyItems]
  exact absurd rfl (hobj _)

lemma send_data_message_items_error {w : World} {st : St} {j : Json}
    (cred tok : Option String) (dry : Bool)
    (h : w.initApp = .ok ()) (hobj : ∀ kvs, j ≠ .obj kvs) :
    send_data_message cred w st tok j dry =
      ((initializeSDK cred w st).1, .error (.attributeError (itemsErr j))) := by
  unfold send_data_message
  rw [initializeSDK_pair cred h]
  simp [pyItems_err hobj]

/-- One state step of `FCMClient.initialize` (the returned state, ignoring
the raised exception if any). -/
def iterInit (cred : Option String) (w : World) : St → St :=
  fun s => (initializeSDK cred w s).1

lemma iterInit_fixed {cred : Option String} {w : World} {st : St}
    (h : st.initialized = true) : iterInit cred w st = st := by
  unfold iterInit initializeSDK
  simp [h]

lemma get_access_token_error {w : World} {st : St} {m : String} (cred : Option String)
    (h : w.initApp = .ok ()) (hm : w.adminToken = .error m) :
    get_access_token cred w st =
      ({ (initializeSDK cred w st).1 with
          tokenFetches := (initializeSDK cred w st).1.tokenFetches + 1 },
        .error (.tokenError m)) := by
  unfold get_access_token
  rw [initializeSDK_pair cred h]
  simp [hm]

lemma get_access_token_ok {w : World} {st : St} {t : String} (cred : Option String)
    (h : w.initApp = .ok ()) (ht : w.adminToken = .ok t) :
    get_access_token cred w st =
      ({ (initializeSDK cred w st).1 with
          tokenFetches := (initializeSDK cred w st).1.tokenFetches + 1 },
        .ok t) := by
  unfold get_access_token
  rw [initializeSDK_pair cred h]
  simp [ht]

lemma send_notification_const_snd {w : World} {st : St} {o : SendOutcome}
    (cred tok ti bo img : Option String) (d : Option (List (String × Json))) (dry : Bool)
    (h : w.initApp = .ok ()) (hsend : ∀ ms dy, w.send ms dy = o) :
    (send_notification cred w st tok ti bo d img dry).2 = (sendOutcomeToExc st o).2
    ∧ (send_notification cred w st tok ti bo d img dry).1.stdout = st.stdout := by
  unfold send_notification
  rw [initializeSDK_pair cred h]
  constructor
  · simp [doSend, hsend]
    cases o <;> simp [sendOutcomeToExc]
  · simp [doSend, hsend, sendOutcomeToExc_fst, initializeSDK_fst_stdout]

lemma send_data_message_const_snd {w : World} {st : St} {o : SendOutcome}
    (cred tok : Option String) (kvs : List (String × Json)) (dry : Bool)
    (h : w.initApp = .ok ()) (hsend : ∀ ms dy, w.send ms dy = o) :
    (send_data_message cred w st tok (.obj kvs) dry).2 = (sendOutcomeToExc st o).2
    ∧ (send_data_message cred w st tok (.obj kvs) dry).1.stdout = st.stdout := by
  unfold send_data_message
  rw [initializeSDK_pair cred h]
  constructor
  · simp [pyItems, doSend, hsend]
    cases o <;> simp [sendOutcomeToExc]
  · simp [pyItems, doSend, hsend, sendOutcomeToExc_fst, initializeSDK_fst_stdout]

lemma handle_notification_send_res_ok {args : Args} {w : World} {st : St} {messageId : String}
    (h : w.initApp = .ok ()) (hsend : ∀ ms dy, w.send ms dy = .ok messageId)
    (d : Option (List (String × Json))) :
    (handle_notification_send args w st d).2 = .normal := by
  obtain ⟨hr, _⟩ := send_notification_const_snd args.credentials_key_file args.token
    args.title args.body args.image d args.dry_run h hsend
  unfold handle_notification_send
  rcases hs : send_notification args.credentials_key_file w st
      args.token args.title args.body d args.image args.dry_run with ⟨st1, r⟩
  rw [hs] at hr
  simp only [sendOutcomeToExc] at hr
  subst hr
  cases hd : args.dry_run <;> simp [hd]

lemma handle_notification_send_res_unregistered {args : Args} {w : World} {st : St}
    (h : w.initApp = .ok ()) (hsend : ∀ ms dy, w.send ms dy = .unregistered)
    (d : Option (List (String × Json))) :
    (handle_notification_send args w st d).2 = .exited 1
    ∧ (handle_notification_send args w st d).1.stdout = st.stdout ++
        ["\n✗ Error: The FCM token is not registered (device may have uninstalled the app)"] := by
  obtain ⟨hr, hout⟩ := send_notification_const_snd args.credentials_key_file args.token
    args.title args.body args.image d args.dry_run h hsend
  unfold handle_notification_send
  rcases hs : send_notification args.credentials_key_file w st
      args.token args.title args.body d args.image args.dry_run with ⟨st1, r⟩
  rw [hs] at hr hout
  simp only [sendOutcomeToExc] at hr
  subst hr
  exact ⟨rfl, by simp [show st1.stdout = st.stdout from hout]⟩

lemma handle_notification_send_res_mismatch {args : Args} {w : World} {st : St}
    (h : w.initApp = .ok ()) (hsend : ∀ ms dy, w.send ms dy = .senderIdMismatch)
    (d : Option (List (String × Json))) :
    (handle_notification_send args w st d).2 = .exited 1
    ∧ (handle_notification_send args w st d).1.stdout = st.stdout ++
        ["\n✗ Error: The FCM token does not match the sender ID (wrong project?)"] := by
  obtain ⟨hr, hout⟩ := send_notification_const_snd args.credentials_key_file args.token
    args.title args.body args.image d args.dry_run h hsend
  unfold handle_notification_send
  rcases hs : send_notification args.credentials_key_file w st
      args.token args.title args.body d args.image args.dry_run with ⟨st1, r⟩
  rw [hs] at hr hout
  simp only [sendOutcomeToExc] at hr
  subst hr
  exact ⟨rfl, by simp [show st1.stdout = st.stdout from hout]⟩

lemma handle_notification_send_res_failure {args : Args} {w : World} {st : St} {m : String}
    (h : w.initApp = .ok ()) (hsend : ∀ ms dy, w.send ms dy = .failure m)
    (d : Option (List (String × Json))) :
    (handle_notification_send args w st d).2 = .exited 1
    ∧ (handle_notification_send args w st d).1.stdout = st.stdout ++
        ["\n✗ Error sending notification: " ++ m] := by
  obtain ⟨hr, hout⟩ := send_notification_const_snd args.credentials_key_file args.token
    args.title args.body args.image d args.dry_run h hsend
  unfold handle_notification_send
  rcases hs : send_notification args.credentials_key_file w st
      args.token args.title args.body d args.image args.dry_run with ⟨st1, r⟩
  rw [hs] at hr hout
  simp only [sendOutcomeToExc] at hr
  subst hr
  exact ⟨rfl, by simp [strOfExc, show st1.stdout = st.stdout from hout]⟩

lemma send_data_message_remote_failure {w : World} {st : St} {m : String}
    (cred tok : Option String) (kvs : List (String × Json)) (dry : Bool)
    (h : w.initApp = .ok ()) (hsend : ∀ ms dy, w.send ms dy = .failure m) :
    (send_data_message cred w st tok (.obj kvs) dry).2 = .error (.firebaseError m)
    ∧ (send_data_message cred w st tok (.obj kvs) dry).1.stdout = st.stdout := by
  unfold send_data_message
  rw [initializeSDK_pair cred h]
  simp [pyItems, doSend, hsend, sendOutcomeToExc, initializeSDK_fst_stdout]

lemma credentials_path_config_error {flagVal envVal : Option String} (fs : String → Bool)
    (h1 : truthy flagVal = false) (h2 : truthy envVal = false) :
    credentials_path flagVal envVal fs = .error (.environmentError noCredsMsg) := by
  have hsel : selectedPath flagVal envVal = envVal := by simp [selectedPath, h1]
  rcases envVal with _ | s
  · simp [credentials_path, hsel]
  · have hs : s = "" := by simpa [truthy] using h2
    subst hs
    simp [credentials_path, hsel]

lemma credentials_path_not_found {flagVal envVal : Option String} {fs : String → Bool}
    {p : String} (hsel : selectedPath flagVal envVal = some p) (hp : p ≠ "")
    (hf : fs p = false) :
    credentials_path flagVal envVal fs =
      .error (.fileNotFoundError ("Credentials file not found: " ++ p)) := by
  simp [credentials_path, hsel, hp, hf]

lemma exit_run_le (args : Args) (w : World) (st : St) :
    exitCodeOf (run args w st).2 ≤ 2 := by
  unfold run
  split
  · exact exit_handle_info_le _ _
  · split
    · exact exit_handle_info_le _ _
    · split
      · split
        · simp [parserError, exitCodeOf]
        · exact exit_handle_data_only_le
      · split
        · split
          · simp [parserError, exitCodeOf]
          · exact exit_handle_notification_le
        · simp [exitCodeOf]

end Helpers

end FcmSend

deriving instance DecidableEq for Except

namespace FcmSend

/-- C2, counterexample: with `--credentials-key-file ""` (a given flag
value) and the environment variable set to `/env/creds.json`, the resolver
returns the environment value, not the flag value — Python truthiness
treats the empty flag string as absent, so the claim fails for the empty
path. -/
theorem credentials_flag_precedence_counterexample :
    credentials_path (some "") (some "/env/creds.json") (fun _ => true) = .ok "/env/creds.json"
    ∧ credentials_path (some "") (some "/env/creds.json") (fun _ => true) ≠ .ok "" := by
  exact ⟨rfl, by decide⟩

/-- C2 amended: whenever the `--credentials-key-file` value is a non-empty
string, the resolver selects it regardless of the environment variable
(returning it when the file exists, failing with NotFoundError otherwise);
a flag given as the empty string behaves exactly as an absent flag, and
only then is the environment variable consulted. -/
theorem credentials_flag_precedence_amended :
    ∀ (p : String) (envVal : Option String) (fs : String → Bool), p ≠ "" →
      selectedPath (some p) envVal = some p
      ∧ (fs p = true → credentials_path (some p) envVal fs = .ok p)
      ∧ (fs p = false → credentials_path (some p) envVal fs =
          .error (.fileNotFoundError ("Credentials file not found: " ++ p)))
      ∧ (∀ fs2 : String → Bool,
          credentials_path none envVal fs2 = credentials_path (some "") envVal fs2) := by
  intro p envVal fs hp
  have htr : truthy (some p) = true := by simp [truthy, hp]
  refine ⟨by simp [selectedPath, htr], ?_, ?_, ?_⟩
  · intro hf
    simp [credentials_path, selectedPath, htr, hp, hf]
  · intro hf
    simp [credentials_path, selectedPath, htr, hp, hf]
  · intro fs2
    simp [credentials_path, selectedPath, truthy]

/-- C2 amended, witness at a concrete non-empty flag path. -/
theorem credentials_flag_precedence_amended_witness :
    credentials_path (some "/flag/creds.json") (some "/env/creds.json") (fun _ => true) =
      .ok "/flag/creds.json" :=
  (credentials_flag_precedence_amended "/flag/creds.json" (some "/env/creds.json")
    (fun _ => true) (by decide)).2.1 rfl

/-- C5: with neither a truthy `--credentials-key-file` nor a truthy
`GOOGLE_APPLICATION_CREDENTIALS`, path resolution fails with the
configuration error (`EnvironmentError`); a resolved non-empty path that
does not exist on disk fails with the not-found error
(`FileNotFoundError`); and an `--info` invocation with no credential
source exits 1 without any token fetch or send (no network access). -/
theorem credential_resolution_errors :
    (∀ (flagVal envVal : Option String) (fs : String → Bool),
        truthy flagVal = false → truthy envVal = false →
        credentials_path flagVal envVal fs = .error (.environmentError noCredsMsg))
    ∧ (∀ (flagVal envVal : Option String) (fs : String → Bool) (p : String),
        selectedPath flagVal envVal = some p → p ≠ "" → fs p = false →
        credentials_path flagVal envVal fs =
          .error (.fileNotFoundError ("Credentials file not found: " ++ p)))
    ∧ (∀ (args : Args) (w : World) (st : St),
        args.info = true → truthy args.credentials_key_file = false → truthy st.env = false →
        (run args w st).2 = .exited 1
        ∧ (run args w st).1.tokenFetches = st.tokenFetches
        ∧ (run args w st).1.sends = st.sends) := by
  refine ⟨fun flagVal envVal fs h1 h2 => credentials_path_config_error fs h1 h2,
    fun flagVal envVal fs p hsel hp hf => credentials_path_not_found hsel hp hf, ?_⟩
  intro args w st hi hflag henv
  rw [run_eq_handle_info (Or.inl hi)]
  have hcp : credentials_path args.credentials_key_file st.env w.fileExists =
      .error (.environmentError noCredsMsg) :=
    credentials_path_config_error _ hflag henv
  refine ⟨?_, ?_, ?_⟩ <;>
    simp [handle_info, show_info, project_id, credentials_info, hcp]

/-- C5, witness: a concrete invocation with no credential source. -/
theorem credential_resolution_errors_witness :
    credentials_path none none (fun _ => true) = .error (.environmentError noCredsMsg)
    ∧ credentials_path none (some "/gone.json") (fun _ => false) =
        .error (.fileNotFoundError ("Credentials file not found: " ++ "/gone.json"))
    ∧ (run { info := true } wBase (freshSt none)).2 = .exited 1
    ∧ (run { info := true } wBase (freshSt none)).1.tokenFetches = 0 := by
  refine ⟨credential_resolution_errors.1 none none (fun _ => true) rfl rfl,
    credential_resolution_errors.2.1 none (some "/gone.json") (fun _ => false)
      "/gone.json" rfl (by decide) rfl,
    (credential_resolution_errors.2.2 { info := true } wBase (freshSt none) rfl rfl rfl).1,
    (credential_resolution_errors.2.2 { info := true } wBase (freshSt none) rfl rfl rfl).2.1⟩

/-- C7, counterexample: for the loaded payload `{}` (an empty JSON object,
hence falsy in Python) the `project_id` field is absent, yet both accessors
return the empty string, not the sentinel `"N/A"`. -/
theorem accessors_sentinel_counterexample :
    project_id_of (Json.obj []) = .ok (.str "")
    ∧ service_account_email_of (Json.obj []) = .ok (.str "")
    ∧ ("" : String) ≠ "N/A" :=
  ⟨rfl, rfl, by decide⟩

/-- C7 amended: on a loaded payload that is a non-empty JSON object the
accessors never fail and return the stored field value, or the sentinel
`"N/A"` when the field is absent; on a falsy payload (such as the empty
object or `null`) they instead return the empty string. -/
theorem accessors_sentinel_amended :
    (∀ kvs : List (String × Json), kvs ≠ [] →
      (kvs.lookup "project_id" = none → project_id_of (.obj kvs) = .ok (.str "N/A"))
      ∧ (∀ v, kvs.lookup "project_id" = some v → project_id_of (.obj kvs) = .ok v)
      ∧ (kvs.lookup "client_email" = none →
          service_account_email_of (.obj kvs) = .ok (.str "N/A"))
      ∧ (∀ v, kvs.lookup "client_email" = some v →
          service_account_email_of (.obj kvs) = .ok v))
    ∧ project_id_of (.obj []) = .ok (.str "")
    ∧ service_account_email_of (.obj []) = .ok (.str "")
    ∧ project_id_of .null = .ok (.str "") := by
  refine ⟨?_, rfl, rfl, rfl⟩
  intro kvs hne
  have htr : pyTruthy (.obj kvs) = true := by
    simp [pyTruthy, List.isEmpty_iff, hne]
  refine ⟨?_, ?_, ?_, ?_⟩ <;> intros <;>
    simp [project_id_of, service_account_email_of, dictGet, htr, *]

/-- C8: session initialization is idempotent — a second call on any state
returned by a call is a no-op; from a fresh process state any positive
number of calls runs the underlying SDK initialization exactly once; and a
truthy explicit credential path is written into the
`GOOGLE_APPLICATION_CREDENTIALS` environment variable before that single
`initialize_app` call (the environment seen by the call is the flag
value). -/
theorem initialize_idempotent_exactly_once :
    ∀ (cred : Option String) (w : World) (st : St) (e : Option String) (n : Nat),
      w.initApp = .ok () →
      iterInit cred w (iterInit cred w st) = iterInit cred w st
      ∧ ((iterInit cred w)^[n + 1] (freshSt e)).initCount = 1
      ∧ (∀ p : String, cred = some p → p ≠ "" →
          ((iterInit cred w)^[n + 1] (freshSt e)).initEnvSeen = [some p]
          ∧ ((iterInit cred w)^[n + 1] (freshSt e)).env = some p) := by
  intro cred w st e n h
  have hstep : ∀ s : St, s.initialized = false → s.apps = false →
      (iterInit cred w s).initialized = true
      ∧ (iterInit cred w s).initCount = s.initCount + 1
      ∧ (iterInit cred w s).initEnvSeen =
          s.initEnvSeen ++ [if truthy cred then cred else s.env]
      ∧ (iterInit cred w s).env = (if truthy cred then cred else s.env) := by
    intro s hs ha
    unfold iterInit initializeSDK
    cases htr : truthy cred <;> simp [hs, ha, h, htr]
  have hpass : ∀ s : St, s.apps = true → iterInit cred w s = s := by
    intro s ha
    unfold iterInit initializeSDK
    simp [ha]
  have hidem : ∀ s : St, iterInit cred w (iterInit cred w s) = iterInit cred w s := by
    intro s
    rcases hi : s.initialized with _ | _
    · rcases ha : s.apps with _ | _
      · exact iterInit_fixed (hstep s hi ha).1
      · rw [hpass s ha, hpass s ha]
    · rw [iterInit_fixed hi, iterInit_fixed hi]
  have hiter : (iterInit cred w)^[n + 1] (freshSt e) = iterInit cred w (freshSt e) := by
    rw [Function.iterate_succ_apply]
    exact Function.iterate_fixed (hidem (freshSt e)) n
  have hfresh := hstep (freshSt e) rfl rfl
  refine ⟨hidem st, ?_, ?_⟩
  · rw [hiter, hfresh.2.1]
    rfl
  · intro p hc hp
    subst hc
    have htr : truthy (some p) = true := by simp [truthy, hp]
    rw [hiter]
    refine ⟨?_, ?_⟩
    · rw [hfresh.2.2.1, htr]
      rfl
    · rw [hfresh.2.2.2, htr]
      simp

/-- C8, witness: with a concrete credential path, three calls from a fresh
state initialize once and propagate the path. -/
theorem initialize_idempotent_exactly_once_witness :
    ((iterInit (some "/p.json") wBase)^[3] (freshSt none)).initCount = 1
    ∧ ((iterInit (some "/p.json") wBase)^[3] (freshSt none)).initEnvSeen = [some "/p.json"] := by
  have h := initialize_idempotent_exactly_once (some "/p.json") wBase (freshSt none) none 2 rfl
  exact ⟨h.2.1, (h.2.2 "/p.json" rfl (by decide)).1⟩

/-- C10: `send_notification` performs no string coercion — the data mapping
it is given reaches the constructed message unchanged, non-string values
included — whereas `send_data_message` stringifies every value of its
payload itself. -/
theorem send_coercion_contrast :
    ∀ (cred : Option String) (w : World) (st : St) (tok ti bo img : Option String)
      (d : Option (List (String × Json))) (kvs : List (String × Json)) (dry : Bool),
      w.initApp = .ok () →
      (send_notification cred w st tok ti bo d img dry).1.sends =
        st.sends ++ [({ notification := some { title := ti, body := bo, image := img },
                        token := tok, data := d }, dry)]
      ∧ (send_data_message cred w st tok (.obj kvs) dry).1.sends =
        st.sends ++ [({ notification := none, token := tok,
                        data := some (kvs.map (fun kv => (kv.1, Json.str (pyStr kv.2)))) }, dry)] := by
  intro cred w st tok ti bo img d kvs dry h
  exact ⟨send_notification_sends cred h tok ti bo img d dry,
    send_data_message_sends cred h tok kvs dry⟩

/-- C10, witness: a non-string value `5` passes through `send_notification`
unchanged while `send_data_message` turns it into `"5"`. -/
theorem send_coercion_contrast_witness :
    (send_notification none wBase (freshSt none) (some "t") (some "T") (some "B")
        (some [("n", Json.num 5)]) none false).1.sends =
      [({ notification := some { title := some "T", body := some "B", image := none },
          token := some "t", data := some [("n", Json.num 5)] }, false)]
    ∧ (send_data_message none wBase (freshSt none) (some "t")
        (.obj [("n", Json.num 5)]) false).1.sends =
      [({ notification := none, token := some "t",
          data := some [("n", Json.str "5")] }, false)] := by
  obtain ⟨h1, h2⟩ := send_coercion_contrast none wBase (freshSt none) (some "t") (some "T")
    (some "B") none (some [("n", Json.num 5)]) [("n", Json.num 5)] false rfl
  exact ⟨h1.trans rfl, h2.trans rfl⟩

/-- C1: in notification mode every `--data` value and in data-only mode
every `--data-only` value reaches the message handed to `messaging.send` as
the Python string form of the original JSON value, with keys unchanged. -/
theorem data_values_stringified :
    ∀ (args : Args) (w : World) (st : St) (s : String) (kvs : List (String × Json)),
      w.initApp = .ok () →
      (notifMode args → args.data = some s → s ≠ "" → w.loads s = .ok (.obj kvs) →
        (run args w st).1.sends = st.sends ++
          [({ notification := some { title := args.title, body := args.body, image := args.image },
              token := args.token,
              data := some (kvs.map (fun kv => (kv.1, Json.str (pyStr kv.2)))) }, args.dry_run)])
      ∧ (dataOnlyMode args → args.data_only = some s → w.loads s = .ok (.obj kvs) →
        (run args w st).1.sends = st.sends ++
          [({ notification := none, token := args.token,
              data := some (kvs.map (fun kv => (kv.1, Json.str (pyStr kv.2)))) }, args.dry_run)])
      ∧ (kvs.map (fun kv => (kv.1, Json.str (pyStr kv.2)))).map Prod.fst = kvs.map Prod.fst := by
  intro args w st s kvs h
  refine ⟨?_, ?_, by simp⟩
  · rintro ⟨hni, hdo, ht, hti, hb⟩ hd hs hl
    rw [run_eq_handle_notification hni hdo ht hti hb]
    have hts : truthy (some s) = true := by simp [truthy, hs]
    simp only [handle_notification, hd, Option.getD_some, hl, pyItems, hts, if_true]
    exact handle_notification_send_sends h _
  · rintro ⟨hni, hdo, ht⟩ hd hl
    rw [run_eq_handle_data_only hni hdo ht]
    refine handle_data_only_sends_of_obj h kvs ?_
    rw [hd]
    simpa using hl

/-- C1, witness: the spec scenario `--data-only` payload `{"n": 1}` is sent
as `{"n": "1"}` (and a notification `--data` payload `{"n": 5}` as
`{"n": "5"}`). -/
theorem data_values_stringified_witness :
    (run { token := some "t", title := some "T", body := some "B", data := some "d" }
        { wBase with loads := fun _ => .ok (.obj [("n", Json.num 5)]) } (freshSt none)).1.sends =
      [({ notification := some { title := some "T", body := some "B", image := none },
          token := some "t", data := some [("n", Json.str "5")] }, false)]
    ∧ (run { token := some "t", data_only := some "d" }
        { wBase with loads := fun _ => .ok (.obj [("n", Json.num 1)]) } (freshSt none)).1.sends =
      [({ notification := none, token := some "t",
          data := some [("n", Json.str "1")] }, false)] := by
  have h1 := (data_values_stringified
      { token := some "t", title := some "T", body := some "B", data := some "d" }
      { wBase with loads := fun _ => .ok (.obj [("n", Json.num 5)]) } (freshSt none) "d"
      [("n", Json.num 5)] rfl).1
      ⟨⟨rfl, rfl, rfl, rfl⟩, rfl, rfl, rfl, rfl⟩ rfl (by decide) rfl
  have h2 := (data_values_stringified
      { token := some "t", data_only := some "d" }
      { wBase with loads := fun _ => .ok (.obj [("n", Json.num 1)]) } (freshSt none) "d"
      [("n", Json.num 1)] rfl).2.1
      ⟨⟨rfl, rfl, rfl, rfl⟩, rfl, rfl⟩ rfl rfl
  exact ⟨h1.trans rfl, h2.trans rfl⟩

/-- C6: a send-mode invocation missing a required flag — a truthy
`--data-only` without a truthy `--token`, or a truthy `--token` (not in
data-only mode) without a truthy `--title` or `--body` — ends in the
parser's usage error and never invokes the Messaging Client's send
operation. -/
theorem usage_errors_no_send :
    ∀ (args : Args) (w : World) (st : St),
      noInfoFlags args →
      ((truthy args.data_only = true → truthy args.token = false →
        (run args w st).2 = .exited 2 ∧ (run args w st).1.sends = st.sends)
      ∧ (truthy args.data_only = false → truthy args.token = true →
        (truthy args.title = false ∨ truthy args.body = false) →
        (run args w st).2 = .exited 2 ∧ (run args w st).1.sends = st.sends)) := by
  intro args w st hni
  constructor
  · intro hd ht
    rw [run_eq_usage_data_only hni hd ht]
    simp [parserError]
  · intro hd ht htb
    rw [run_eq_usage_notification hni hd ht htb]
    simp [parserError]

/-- C6, witness: `--data-only` without `--token`, and `--token --title`
without `--body`, both exit through the usage error without sending. -/
theorem usage_errors_no_send_witness :
    ((run { data_only := some "x" } wBase (freshSt none)).2 = .exited 2
      ∧ (run { data_only := some "x" } wBase (freshSt none)).1.sends = [])
    ∧ (run { token := some "t", title := some "T" } wBase (freshSt none)).2 = .exited 2 := by
  refine ⟨(usage_errors_no_send { data_only := some "x" } wBase (freshSt none)
      ⟨rfl, rfl, rfl, rfl⟩).1 rfl rfl, ?_⟩
  exact ((usage_errors_no_send { token := some "t", title := some "T" } wBase (freshSt none)
      ⟨rfl, rfl, rfl, rfl⟩).2 rfl rfl (Or.inr rfl)).1

/-- C3: the dispatcher is the first-match selection over the five mode
guards in the fixed order show-info-admin, show-info-http, data-only send,
notification send, help; in particular when truthy `--data` and
`--data-only` are both supplied together with a truthy `--token`, the
data-only send runs and the notification fields (`--title`, `--body`,
`--image`, `--data`) are ignored. -/
theorem dispatch_fixed_order :
    (∀ args : Args, selectMode args = firstMatch (modeGuards args))
    ∧ (∀ (args : Args) (w : World) (st : St) (t b i d : Option String),
        dataOnlyMode args →
        selectMode args = .sendDataOnly
        ∧ run args w st = handle_data_only args w st
        ∧ run args w st = run { args with title := t, body := b, image := i, data := d } w st) := by
  constructor
  · intro args
    rfl
  · rintro args w st t b i d ⟨hni, hdo, ht⟩
    obtain ⟨h1, h2, h3, h4⟩ := hni
    refine ⟨by simp [selectMode, h1, h2, h3, h4, hdo], run_eq_handle_data_only ⟨h1, h2, h3, h4⟩ hdo ht, ?_⟩
    rw [run_eq_handle_data_only ⟨h1, h2, h3, h4⟩ hdo ht,
      @run_eq_handle_data_only { args with title := t, body := b, image := i, data := d } w st
        ⟨h1, h2, h3, h4⟩ hdo ht]
    rfl

/-- C3, witness: with `--data` and `--data-only` both supplied, the sent
message is the data-only one (no notification part, the `--data-only`
payload) and `--title` is ignored. -/
theorem dispatch_fixed_order_witness :
    selectMode { token := some "t", data_only := some "x", data := some "y", title := some "T" } =
      .sendDataOnly
    ∧ run { token := some "t", data_only := some "x", data := some "y", title := some "T" }
        wBase (freshSt none) =
      run { token := some "t", data_only := some "x", data := none, title := none }
        wBase (freshSt none) := by
  have h := dispatch_fixed_order.2
    { token := some "t", data_only := some "x", data := some "y", title := some "T" }
    wBase (freshSt none) none none none none ⟨⟨rfl, rfl, rfl, rfl⟩, rfl, rfl⟩
  exact ⟨h.1, h.2.2⟩

/-- C9: with `--data` well-formed JSON that is not a JSON object in
notification mode, the stringifying comprehension raises an uncaught
`AttributeError` (nothing is printed, in particular no parse-error
message); the same non-object payload as `--data-only` is caught by the
generic send-error handler, printed with the generic prefix, and exits
1. -/
theorem non_object_payload_divergence :
    ∀ (args : Args) (w : World) (st : St) (s : String) (j : Json),
      w.loads s = .ok j → (∀ kvs, j ≠ .obj kvs) →
      ((notifMode args → args.data = some s → s ≠ "" →
        (run args w st).2 = .uncaught (.attributeError (itemsErr j))
        ∧ (run args w st).1.stdout = st.stdout)
      ∧ (dataOnlyMode args → args.data_only = some s → w.initApp = .ok () →
        (run args w st).2 = .exited 1
        ∧ (run args w st).1.stdout =
            st.stdout ++ ["\n✗ Error sending data message: " ++ itemsErr j])) := by
  intro args w st s j hl hobj
  constructor
  · rintro ⟨hni, hdo, ht, hti, hb⟩ hd hs
    rw [run_eq_handle_notification hni hdo ht hti hb]
    have hts : truthy (some s) = true := by simp [truthy, hs]
    simp [handle_notification, hd, Option.getD_some, hl, pyItems_err hobj, hts, if_true]
  · rintro ⟨hni, hdo, ht⟩ hd hI
    rw [run_eq_handle_data_only hni hdo ht]
    unfold handle_data_only
    rw [hd]
    simp only [Option.getD_some, hl]
    rw [send_data_message_items_error args.credentials_key_file args.token args.dry_run hI hobj]
    simp [strOfExc, initializeSDK_fst_stdout]

/-- C9, witness: `--data '5'` (with token, title, body) ends in an uncaught
`AttributeError` with nothing printed, while `--data-only '5'` prints the
generic send-error line and exits 1. -/
theorem non_object_payload_divergence_witness :
    ((run { token := some "t", title := some "T", body := some "B", data := some "5" }
        { wBase with loads := fun _ => .ok (.num 5) } (freshSt none)).2 =
      .uncaught (.attributeError (itemsErr (.num 5)))
    ∧ (run { token := some "t", title := some "T", body := some "B", data := some "5" }
        { wBase with loads := fun _ => .ok (.num 5) } (freshSt none)).1.stdout = [])
    ∧ (run { token := some "t", data_only := some "5" }
        { wBase with loads := fun _ => .ok (.num 5) } (freshSt none)).2 = .exited 1 := by
  have h1 := (non_object_payload_divergence
      { token := some "t", title := some "T", body := some "B", data := some "5" }
      { wBase with loads := fun _ => .ok (.num 5) } (freshSt none) "5" (.num 5) rfl
      (fun kvs h => by cases h)).1
      ⟨⟨rfl, rfl, rfl, rfl⟩, rfl, rfl, rfl, rfl⟩ rfl (by decide)
  have h2 := (non_object_payload_divergence
      { token := some "t", data_only := some "5" }
      { wBase with loads := fun _ => .ok (.num 5) } (freshSt none) "5" (.num 5) rfl
      (fun kvs h => by cases h)).2
      ⟨⟨rfl, rfl, rfl, rfl⟩, rfl, rfl⟩ rfl rfl
  exact ⟨⟨h1.1, h1.2⟩, h2.1⟩

/-- C4, counterexample: `--data-only` without `--token` (a usage error)
exits with status 2, not 1, contradicting the uniform exit-1 claim. -/
theorem exit_codes_counterexample :
    (run { data_only := some "x" } wBase (freshSt none)).2 = .exited 2
    ∧ exitCodeOf (run { data_only := some "x" } wBase (freshSt none)).2 ≠ 1 := by
  exact ⟨rfl, by decide⟩

/-- C4 amended: success and help display exit 0 and no status above 2
occurs; configuration, JSON-parse and remote-send errors handled in the CLI
print a human-readable prefixed message and exit 1; usage errors raised
through the argument parser print to standard error and exit 2; and a
token-retrieval failure during show-info prints a prefixed error yet exits
0.  The conjuncts cover, in order: the universal bound; help; the two usage
errors; the show-info configuration, not-found, full-success and
token-failure paths; the data-only parse-error, remote-failure and success
paths; and the notification parse-error, unregistered, sender-mismatch,
remote-failure and success (without and with `--data`) paths. -/
theorem exit_codes_amended :
    (∀ (args : Args) (w : World) (st : St), exitCodeOf (run args w st).2 ≤ 2)
    ∧ (∀ (args : Args) (w : World) (st : St), noInfoFlags args →
        truthy args.data_only = false → truthy args.token = false →
        run args w st = ({ st with stdout := st.stdout ++ [helpText] }, .normal))
    ∧ (∀ (args : Args) (w : World) (st : St), noInfoFlags args →
        truthy args.data_only = true → truthy args.token = false →
        (run args w st).2 = .exited 2
        ∧ (run args w st).1.stderrLines = st.stderrLines ++
            ["usage: fcm_send.py [-h] ...",
             "fcm_send.py: error: --token is required for sending messages"])
    ∧ (∀ (args : Args) (w : World) (st : St), noInfoFlags args →
        truthy args.data_only = false → truthy args.token = true →
        (truthy args.title = false ∨ truthy args.body = false) →
        (run args w st).2 = .exited 2)
    ∧ (∀ (args : Args) (w : World) (st : St), args.info = true →
        truthy args.credentials_key_file = false → truthy st.env = false →
        (run args w st).2 = .exited 1
        ∧ (run args w st).1.stdout = st.stdout ++
            ["\n" ++ eqLine, "Firebase Service Account Information", eqLine,
             "Error: " ++ noCredsMsg])
    ∧ (∀ (args : Args) (w : World) (st : St) (p : String), args.info = true →
        args.credentials_key_file = some p → p ≠ "" → w.fileExists p = false →
        (run args w st).2 = .exited 1
        ∧ (run args w st).1.stdout = st.stdout ++
            ["\n" ++ eqLine, "Firebase Service Account Information", eqLine,
             "Error: " ++ ("Credentials file not found: " ++ p)])
    ∧ (∀ (args : Args) (w : World) (st : St) (p t : String) (kvs : List (String × Json)),
        args.info = true → args.credentials_key_file = some p → p ≠ "" →
        w.fileExists p = true → w.readJson p = .ok (.obj kvs) → kvs ≠ [] →
        w.initApp = .ok () → w.adminToken = .ok t →
        (run args w st).2 = .normal)
    ∧ (∀ (args : Args) (w : World) (st : St) (p m : String) (kvs : List (String × Json)),
        args.info = true → args.credentials_key_file = some p → p ≠ "" →
        w.fileExists p = true → w.readJson p = .ok (.obj kvs) → kvs ≠ [] →
        w.initApp = .ok () → w.adminToken = .error m →
        (run args w st).2 = .normal
        ∧ ("\n  Error retrieving access token: " ++ m) ∈ (run args w st).1.stdout)
    ∧ (∀ (args : Args) (w : World) (st : St) (s m : String), dataOnlyMode args →
        args.data_only = some s → w.loads s = .error m →
        (run args w st).2 = .exited 1
        ∧ (run args w st).1.stdout = st.stdout ++ ["Error: Invalid JSON in --data-only: " ++ m])
    ∧ (∀ (args : Args) (w : World) (st : St) (s m : String) (kvs : List (String × Json)),
        dataOnlyMode args → args.data_only = some s → w.loads s = .ok (.obj kvs) →
        w.initApp = .ok () → (∀ ms dy, w.send ms dy = .failure m) →
        (run args w st).2 = .exited 1
        ∧ (run args w st).1.stdout = st.stdout ++ ["\n✗ Error sending data message: " ++ m])
    ∧ (∀ (args : Args) (w : World) (st : St) (s messageId : String)
        (kvs : List (String × Json)),
        dataOnlyMode args → args.data_only = some s → w.loads s = .ok (.obj kvs) →
        w.initApp = .ok () → (∀ ms dy, w.send ms dy = .ok messageId) →
        (run args w st).2 = .normal)
    ∧ (∀ (args : Args) (w : World) (st : St) (s m : String), notifMode args →
        args.data = some s → s ≠ "" → w.loads s = .error m →
        (run args w st).2 = .exited 1
        ∧ (run args w st).1.stdout = st.stdout ++ ["Error: Invalid JSON in --data: " ++ m])
    ∧ (∀ (args : Args) (w : World) (st : St), notifMode args →
        truthy args.data = false → w.initApp = .ok () →
        (∀ ms dy, w.send ms dy = .unregistered) →
        (run args w st).2 = .exited 1
        ∧ (run args w st).1.stdout = st.stdout ++
            ["\n✗ Error: The FCM token is not registered (device may have uninstalled the app)"])
    ∧ (∀ (args : Args) (w : World) (st : St), notifMode args →
        truthy args.data = false → w.initApp = .ok () →
        (∀ ms dy, w.send ms dy = .senderIdMismatch) →
        (run args w st).2 = .exited 1
        ∧ (run args w st).1.stdout = st.stdout ++
            ["\n✗ Error: The FCM token does not match the sender ID (wrong project?)"])
    ∧ (∀ (args : Args) (w : World) (st : St) (m : String), notifMode args →
        truthy args.data = false → w.initApp = .ok () →
        (∀ ms dy, w.send ms dy = .failure m) →
        (run args w st).2 = .exited 1
        ∧ (run args w st).1.stdout = st.stdout ++ ["\n✗ Error sending notification: " ++ m])
    ∧ (∀ (args : Args) (w : World) (st : St) (messageId : String), notifMode args →
        truthy args.data = false → w.initApp = .ok () →
        (∀ ms dy, w.send ms dy = .ok messageId) →
        (run args w st).2 = .normal)
    ∧ (∀ (args : Args) (w : World) (st : St) (s messageId : String)
        (kvs : List (String × Json)), notifMode args →
        args.data = some s → s ≠ "" → w.loads s = .ok (.obj kvs) →
        w.initApp = .ok () → (∀ ms dy, w.send ms dy = .ok messageId) →
        (run args w st).2 = .normal) := by
  refine ⟨exit_run_le, ?_, ?_, ?_, ?_, ?_, ?_, ?_, ?_, ?_, ?_, ?_, ?_, ?_, ?_, ?_, ?_⟩
  · intro args w st hni hd ht
    exact run_eq_help hni hd ht
  · intro args w st hni hd ht
    rw [run_eq_usage_data_only hni hd ht]
    simp [parserError]
  · intro args w st hni hd ht htb
    rw [run_eq_usage_notification hni hd ht htb]
    rfl
  · intro args w st hi hflag henv
    rw [run_eq_handle_info (Or.inl hi)]
    have hcp : credentials_path args.credentials_key_file st.env w.fileExists =
        .error (.environmentError noCredsMsg) :=
      credentials_path_config_error _ hflag henv
    refine ⟨?_, ?_⟩ <;>
      simp [handle_info, show_info, project_id, credentials_info, hcp]
  · intro args w st p hi hc hp hfe
    rw [run_eq_handle_info (Or.inl hi), hc]
    have hcp : credentials_path (some p) st.env w.fileExists =
        .error (.fileNotFoundError ("Credentials file not found: " ++ p)) :=
      credentials_path_not_found (by simp [selectedPath, truthy, hp]) hp hfe
    refine ⟨?_, ?_⟩ <;>
      simp [handle_info, show_info, project_id, credentials_info, hcp]
  · intro args w st p t kvs hi hc hp hfe hread hne hI htok
    rw [run_eq_handle_info (Or.inl hi), hc]
    have hcp : ∀ ev : Option String, credentials_path (some p) ev w.fileExists = .ok p := by
      intro ev
      simp [credentials_path, selectedPath, truthy, hp, hfe]
    have htrk : pyTruthy (.obj kvs) = true := by
      simp [pyTruthy, List.isEmpty_iff, hne]
    simp [handle_info, show_info, project_id, service_account_email, credentials_info,
      hcp, hread, project_id_of, service_account_email_of, dictGet, htrk,
      get_access_token_ok (some p) hI htok]
  · intro args w st p m kvs hi hc hp hfe hread hne hI hm
    rw [run_eq_handle_info (Or.inl hi), hc]
    have hcp : ∀ ev : Option String, credentials_path (some p) ev w.fileExists = .ok p := by
      intro ev
      simp [credentials_path, selectedPath, truthy, hp, hfe]
    have htrk : pyTruthy (.obj kvs) = true := by
      simp [pyTruthy, List.isEmpty_iff, hne]
    simp [handle_info, show_info, project_id, service_account_email, credentials_info,
      hcp, hread, project_id_of, service_account_email_of, dictGet, htrk,
      get_access_token_error (some p) hI hm, strOfExc]
  · rintro args w st s m ⟨hni, hdo, ht⟩ hd hl
    rw [run_eq_handle_data_only hni hdo ht]
    unfold handle_data_only
    rw [hd]
    simp [hl]
  · rintro args w st s m kvs ⟨hni, hdo, ht⟩ hd hl hI hsend
    rw [run_eq_handle_data_only hni hdo ht]
    unfold handle_data_only
    rw [hd]
    simp only [Option.getD_some, hl]
    obtain ⟨hr, hout⟩ := @send_data_message_remote_failure w st m
      args.credentials_key_file args.token kvs args.dry_run hI hsend
    rcases hs : send_data_message args.credentials_key_file w st args.token (.obj kvs)
        args.dry_run with ⟨st1, r⟩
    rw [hs] at hr hout
    simp only [] at hr hout
    subst hr
    simp [strOfExc, hout]
  · rintro args w st s messageId kvs ⟨hni, hdo, ht⟩ hd hl hI hsend
    rw [run_eq_handle_data_only hni hdo ht]
    unfold handle_data_only
    rw [hd]
    simp only [Option.getD_some, hl]
    obtain ⟨hr, _⟩ := @send_data_message_const_snd w st _
      args.credentials_key_file args.token kvs args.dry_run hI hsend
    rcases hs : send_data_message args.credentials_key_file w st args.token (.obj kvs)
        args.dry_run with ⟨st1, r⟩
    rw [hs] at hr
    simp only [sendOutcomeToExc] at hr
    subst hr
    cases hdr : args.dry_run <;> simp [hdr]
  · rintro args w st s m ⟨hni, hdo, ht, hti, hb⟩ hd hs hl
    rw [run_eq_handle_notification hni hdo ht hti hb]
    have hts : truthy (some s) = true := by simp [truthy, hs]
    simp [handle_notification, hd, Option.getD_some, hl, hts, if_true]
  · rintro args w st ⟨hni, hdo, ht, hti, hb⟩ hdata hI hsend
    rw [run_eq_handle_notification hni hdo ht hti hb]
    simp only [handle_notification, hdata, Bool.false_eq_true, if_false]
    exact handle_notification_send_res_unregistered hI hsend none
  · rintro args w st ⟨hni, hdo, ht, hti, hb⟩ hdata hI hsend
    rw [run_eq_handle_notification hni hdo ht hti hb]
    simp only [handle_notification, hdata, Bool.false_eq_true, if_false]
    exact handle_notification_send_res_mismatch hI hsend none
  · rintro args w st m ⟨hni, hdo, ht, hti, hb⟩ hdata hI hsend
    rw [run_eq_handle_notification hni hdo ht hti hb]
    simp only [handle_notification, hdata, Bool.false_eq_true, if_false]
    exact handle_notification_send_res_failure hI hsend none
  · rintro args w st messageId ⟨hni, hdo, ht, hti, hb⟩ hdata hI hsend
    rw [run_eq_handle_notification hni hdo ht hti hb]
    simp only [handle_notification, hdata, Bool.false_eq_true, if_false]
    exact handle_notification_send_res_ok hI hsend none
  · rintro args w st s messageId kvs ⟨hni, hdo, ht, hti, hb⟩ hd hs hl hI hsend
    rw [run_eq_handle_notification hni hdo ht hti hb]
    have hts : truthy (some s) = true := by simp [truthy, hs]
    simp only [handle_notification, hd, Option.getD_some, hl, pyItems, hts, if_true]
    exact handle_notification_send_res_ok hI hsend _

/-- C4 amended, witness: a concrete usage error exits 2, no flags at all
exits 0 via help, a successful data-only send and a successful notification
send exit 0, a remote notification failure exits 1, and the exit code is
always at most 2. -/
theorem exit_codes_amended_witness :
    exitCodeOf (run { data_only := some "y" } wBase (freshSt none)).2 ≤ 2
    ∧ (run { } wBase (freshSt none)).2 = .normal
    ∧ (run { data_only := some "y" } wBase (freshSt none)).2 = .exited 2
    ∧ (run { token := some "t", data_only := some "y" }
        { wBase with loads := fun _ => .ok (.obj [("n", Json.num 1)]) } (freshSt none)).2 =
      .normal
    ∧ (run { token := some "t", title := some "T", body := some "B" } wBase (freshSt none)).2 =
      .normal
    ∧ (run { token := some "t", title := some "T", body := some "B" }
        { wBase with send := fun _ _ => .failure "boom" } (freshSt none)).2 = .exited 1 := by
  refine ⟨exit_codes_amended.1 { data_only := some "y" } wBase (freshSt none), ?_, ?_, ?_, ?_, ?_⟩
  · rw [exit_codes_amended.2.1 { } wBase (freshSt none) ⟨rfl, rfl, rfl, rfl⟩ rfl rfl]
  · exact (exit_codes_amended.2.2.1 { data_only := some "y" } wBase (freshSt none)
      ⟨rfl, rfl, rfl, rfl⟩ rfl rfl).1
  · exact exit_codes_amended.2.2.2.2.2.2.2.2.2.2.1
      { token := some "t", data_only := some "y" }
      { wBase with loads := fun _ => .ok (.obj [("n", Json.num 1)]) } (freshSt none)
      "y" "projects/demo/messages/1" [("n", Json.num 1)]
      ⟨⟨rfl, rfl, rfl, rfl⟩, rfl, rfl⟩ rfl rfl rfl (fun _ _ => rfl)
  · exact exit_codes_amended.2.2.2.2.2.2.2.2.2.2.2.2.2.2.2.1
      { token := some "t", title := some "T", body := some "B" } wBase (freshSt none)
      "projects/demo/messages/1"
      ⟨⟨rfl, rfl, rfl, rfl⟩, rfl, rfl, rfl, rfl⟩ rfl rfl (fun _ _ => rfl)
  · exact (exit_codes_amended.2.2.2.2.2.2.2.2.2.2.2.2.2.2.1
      { token := some "t", title := some "T", body := some "B" }
      { wBase with send := fun _ _ => .failure "boom" } (freshSt none) "boom"
      ⟨⟨rfl, rfl, rfl, rfl⟩, rfl, rfl, rfl, rfl⟩ rfl rfl (fun _ _ => rfl)).1

/-- C7 amended, witness at the payload from the spec's own scenario. -/
theorem accessors_sentinel_amended_witness :
    project_id_of (.obj [("project_id", .str "demo"), ("client_email", .str "x@y.iam")]) =
      .ok (.str "demo")
    ∧ project_id_of (.obj [("a", .num 1)]) = .ok (.str "N/A") := by
  have h := accessors_sentinel_amended
  exact ⟨(h.1 [("project_id", .str "demo"), ("client_email", .str "x@y.iam")]
      (by simp)).2.1 (.str "demo") rfl,
    (h.1 [("a", .num 1)] (by simp)).1 rfl⟩

end FcmSend
